import Mathlib

/-!
Verification development for the dual-endpoint stream-lifecycle orchestrator
(OBS encoder + YouTube Live platform).

The definitions below are a shallow embedding of the Python sources:

* `stream_control.py` / `src/infrastructure/obs/stream_controller.py`
  (`StreamController`): the hybrid event/poll status monitor
  (`_on_stream_status`, `is_streaming`, `wait_for_stream_start`,
  `start_streaming`, `stop_streaming`);
* `src/infrastructure/youtube/youtube_client.py` (`YouTubeLiveController`):
  the remote-broadcast state machine (`start_broadcast`, `end_broadcast`,
  `create_stream`);
* `integrated_controller.py` / `src/application/services/stream_service.py`
  (`IntegratedLiveController` / `StreamService`): the orchestrator
  (`configure_obs_for_youtube`, `start_integrated_stream`,
  `stop_integrated_stream`).

External collaborators (the OBS WebSocket and the YouTube Data API) are
modelled as explicit oracle inputs: each request the Python code issues
corresponds to one input field (or one position of a query oracle), and a
request that raises an exception is modelled by an explicit error value.
-/

/-! ## Substring search

Python's `in` operator on strings, used by `_on_stream_status` to classify
event types and by the log-inspection lemmas. -/

/-- Boolean list-prefix test (helper for substring search). -/
def isPrefixList : List Char → List Char → Bool
  | [], _ => true
  | _ :: _, [] => false
  | a :: as, b :: bs => a == b && isPrefixList as bs

/-- Boolean list-infix test (helper for substring search). -/
def hasInfixList (n : List Char) : List Char → Bool
  | [] => isPrefixList n []
  | c :: t => isPrefixList n (c :: t) || hasInfixList n t

/-- `containsSub needle hay` is Python's `needle in hay` on strings. -/
def containsSub (needle hay : String) : Bool :=
  hasInfixList needle.data hay.data

/-! ## Encoder event model (`StreamController._on_stream_status`)

An OBS WebSocket notification carries an event-type string and a payload.
The payload may expose an `outputActive` boolean field (v5), an
`outputState` string field (v4), or neither (unparseable for the purpose
of the activity check). -/

/-- Payload of an encoder state-change notification, as probed by
`_on_stream_status`: an optional `outputActive` boolean and an optional
`outputState` string. `none` means the field is absent. -/
structure EventPayload where
  outputActive : Option Bool
  outputState : Option String
deriving DecidableEq, Repr

/-- An encoder notification: event-type string plus payload. -/
structure ObsEvent where
  eventType : String
  payload : EventPayload
deriving DecidableEq, Repr

/-- The category filter of `_on_stream_status`: the event type must contain
`StreamStarted`, `OutputStateChanged` or `OutputActive` as a substring. -/
def categoryMatches (t : String) : Bool :=
  containsSub "StreamStarted" t || containsSub "OutputStateChanged" t ||
    containsSub "OutputActive" t

/-- The payload probe of `_on_stream_status`: `outputActive` if present,
else `outputState == "OBS_WEBSOCKET_OUTPUT_STARTED"` if present, else
`False`. -/
def parseOutputActive (p : EventPayload) : Bool :=
  match p.outputActive with
  | some b => b
  | none =>
    match p.outputState with
    | some s => s == "OBS_WEBSOCKET_OUTPUT_STARTED"
    | none => false

/-- Whether `_on_stream_status` treats an event as evidence of active
output: category filter passes and the payload parses to a true activity
field. -/
def eventIndicatesActive (ev : ObsEvent) : Bool :=
  categoryMatches ev.eventType && parseOutputActive ev.payload

/-- Effect of one `_on_stream_status` callback on the `streaming_event`
latch: the latch is set when the event indicates active output and is left
unchanged otherwise (the handler never clears it). -/
def on_stream_status (latch : Bool) (ev : ObsEvent) : Bool :=
  if eventIndicatesActive ev then true else latch

/-! ## Point-in-time poll (`StreamController.is_streaming`) -/

/-- A `GetStreamStatus` response as probed by `is_streaming`: the
`output_active` attribute when present, else the string representation
consulted by the last-resort substring check. -/
structure StatusResponse where
  outputActive : Option Bool
  reprStr : String
deriving DecidableEq, Repr

/-- `is_streaming`: issue `GetStreamStatus`; `Except.error` models the
request raising. On success, return `output_active` when present, else
fall back to searching `"output_active: True"` inside the lowercased
string representation; on exception return `False`. -/
def is_streaming (resp : Except Unit StatusResponse) : Bool :=
  match resp with
  | .error _ => false
  | .ok r =>
    match r.outputActive with
    | some b => b
    | none => containsSub "output_active: True" r.reprStr.toLower

/-! ## Bounded wait (`StreamController.wait_for_stream_start`)

Inputs: the latch value at entry, the result of the immediate poll, the
events delivered to `_on_stream_status` during the `streaming_event.wait`
window, and the result of the fallback poll issued after the wait times
out. Returns the boolean result together with whether the fallback poll
was issued (it is issued exactly when the immediate poll was negative and
the full timeout elapsed with the latch still clear). -/
def wait_for_stream_start (latch₀ : Bool) (initialPoll : Bool)
    (events : List ObsEvent) (fallbackPoll : Bool) : Bool × Bool :=
  if initialPoll then (true, false)
  else
    let latch := events.foldl on_stream_status latch₀
    if latch then (true, false)
    else (fallbackPoll, true)

/-! ## Encoder start/stop (`start_streaming`, `stop_streaming`)

Only the collaborator responses the code branches on are inputs; the
functions return the boolean result paired with the latch value after the
call. -/

/-- Oracle inputs of one `start_streaming` call. -/
structure StartStreamingInputs where
  /-- result of the initial `is_streaming` check -/
  alreadyStreaming : Bool
  /-- whether the `StartStream` request returned without raising -/
  sendOk : Bool
  /-- when the request raised: whether the message contains "already active" -/
  errAlreadyActive : Bool
  /-- result of the `is_streaming` check two seconds after the request -/
  postStatus : Bool
deriving DecidableEq, Repr

/-- `start_streaming`: returns `(result, latch after the call)`. -/
def start_streaming (latch : Bool) (i : StartStreamingInputs) : Bool × Bool :=
  if i.alreadyStreaming then (true, true)
  else if i.sendOk then (true, latch || i.postStatus)
  else if i.errAlreadyActive then (true, true)
  else (false, latch)

/-- Oracle inputs of one `stop_streaming` call. -/
structure StopStreamingInputs where
  /-- result of the initial `is_streaming` check -/
  isStreaming : Bool
  /-- whether the `StopStream` request returned without raising -/
  sendOk : Bool
  /-- when the request raised: whether the message contains "not active" -/
  errNotActive : Bool
deriving DecidableEq, Repr

/-- `stop_streaming`: returns `(result, latch after the call)`. -/
def stop_streaming (latch : Bool) (i : StopStreamingInputs) : Bool × Bool :=
  if !i.isStreaming then (true, false)
  else if i.sendOk then (true, false)
  else if i.errNotActive then (true, false)
  else (false, latch)

/-! ## Basic latch lemmas -/

/-- One handler step, expressed as a disjunction. -/
theorem on_stream_status_eq (latch : Bool) (ev : ObsEvent) :
    on_stream_status latch ev = (latch || eventIndicatesActive ev) := by
  unfold on_stream_status
  cases h : eventIndicatesActive ev <;> simp [h]

/-- Folding the handler over a delivery sequence sets the latch exactly
when it was set before or some delivered event indicates active output. -/
theorem foldl_on_stream_status (events : List ObsEvent) :
    ∀ latch : Bool,
      events.foldl on_stream_status latch
        = (latch || events.any eventIndicatesActive) := by
  induction events with
  | nil => intro latch; simp
  | cons ev rest ih =>
    intro latch
    simp only [List.foldl_cons, List.any_cons, ih, on_stream_status_eq,
      Bool.or_assoc]

/-! ## Remote-broadcast state machine (`YouTubeLiveController`)

`get_broadcast_status` results are modelled as a query oracle
`q : Nat → String` indexed by the order in which `start_broadcast` issues
them. The explicit `liveBroadcasts().transition` request is modelled by a
`TransitionOutcome` input, and the operator's answer to the
invalid-transition prompt by a boolean. -/

/-- Outcome of one `liveBroadcasts().transition` request. -/
inductive TransitionOutcome where
  /-- the request returned, with the reported `lifeCycleStatus` -/
  | ok (lifeCycleStatus : String)
  /-- `HttpError` whose reason contains `redundantTransition` -/
  | redundantErr
  /-- `HttpError` whose reason contains `invalidTransition` -/
  | invalidErr
  /-- any other `HttpError` -/
  | otherErr
deriving DecidableEq, Repr

/-- Oracle inputs of one `start_broadcast` call, apart from the status
query oracle. -/
structure PromoteInputs where
  /-- whether a broadcast id is available -/
  hasId : Bool
  /-- whether the re-bind attempt raised (its return value is ignored) -/
  bindRaises : Bool
  /-- outcome of the explicit transition request, if one is issued -/
  transition : TransitionOutcome
  /-- operator's answer to the invalid-transition prompt (`y` = true) -/
  manualConfirm : Bool
deriving DecidableEq, Repr

/-- The `current_status in ["ready", "testing"]` test of `start_broadcast`. -/
def isReadyOrTesting (s : String) : Bool :=
  s == "ready" || s == "testing"

/-- The explicit-transition tail of `start_broadcast`: issue the
transition request (query index `idx` is the next unused status query).
Returns `(result, number of explicit transition requests issued)`. -/
def runTransition (q : Nat → String) (idx : Nat) (i : PromoteInputs) :
    Bool × Nat :=
  match i.transition with
  | .ok s => (s == "live", 1)
  | .redundantErr => (true, 1)
  | .invalidErr =>
    if i.manualConfirm then (true, 1)
    else (q idx == "live", 1)
  | .otherErr => (false, 1)

/-- `start_broadcast`: query the state; already-`live` is success with no
transition request; in `ready`/`testing`, poll three times, then re-bind
and re-check, before issuing the explicit transition request. Returns
`(result, number of explicit transition requests issued)`. -/
def start_broadcast (q : Nat → String) (i : PromoteInputs) : Bool × Nat :=
  if !i.hasId then (false, 0)
  else if q 0 == "live" then (true, 0)
  else if isReadyOrTesting (q 0) then
    if q 1 == "live" then (true, 0)
    else if q 2 == "live" then (true, 0)
    else if q 3 == "live" then (true, 0)
    else if !i.bindRaises && (q 4 == "live") then (true, 0)
    else runTransition q (if i.bindRaises then 4 else 5) i
  else runTransition q 1 i

/-- `end_broadcast`: request the `complete` transition with no exception
handling; an `HttpError` (including a redundant-transition rejection)
propagates to the caller, modelled as `Except.error`. -/
def end_broadcast (hasId : Bool) (t : TransitionOutcome) :
    Except Unit Bool :=
  if !hasId then .ok false
  else
    match t with
    | .ok s => .ok (s == "complete")
    | .redundantErr => .error ()
    | .invalidErr => .error ()
    | .otherErr => .error ()

/-! ## Orchestrator (`IntegratedLiveController`)

`start_integrated_stream` is modelled over the boolean results of its
sequential steps (the YouTube-enabled path with a scene request);
`stop_integrated_stream` over the encoder-stop result, the demotion
outcome and the disconnect, and it also returns the list of teardown
actions it issued. -/

/-- Stage at which `start_integrated_stream` reports failure. -/
inductive StartStage where
  | platformPrep
  | obsConfig
  | sceneSwitch
  | encoderStart
  | promotion
deriving DecidableEq, Repr

/-- Step results of one `start_integrated_stream` call (YouTube enabled,
scene requested). -/
structure OrchInputs where
  broadcastOk : Bool
  streamOk : Bool
  bindOk : Bool
  configOk : Bool
  sceneOk : Bool
  encoderStartOk : Bool
  /-- result of `wait_for_stream_start` (a timeout is only a warning) -/
  waitOk : Bool
  /-- result of `start_broadcast` -/
  promoteOk : Bool
deriving DecidableEq, Repr

/-- `start_integrated_stream`: sequential checks; the first failing step
determines the reported stage. The `wait_for_stream_start` result is
deliberately not a failure condition. -/
def start_integrated_stream (i : OrchInputs) : Except StartStage Unit :=
  if !i.broadcastOk then .error .platformPrep
  else if !i.streamOk then .error .platformPrep
  else if !i.bindOk then .error .platformPrep
  else if !i.configOk then .error .obsConfig
  else if !i.sceneOk then .error .sceneSwitch
  else if !i.encoderStartOk then .error .encoderStart
  else if !i.promoteOk then .error .promotion
  else .ok ()

/-- A teardown action issued by `stop_integrated_stream`. -/
inductive TeardownAct where
  /-- `stream_controller.stop_streaming()` -/
  | encoderStop
  /-- `youtube_controller.end_broadcast(...)` -/
  | demoteReq
  /-- `obs_connection.disconnect()` -/
  | disconnect
deriving DecidableEq, Repr, BEq

/-- `stop_integrated_stream`: stop the encoder (its result is a boolean,
never an exception), then — when a broadcast exists — attempt the
demotion, whose exception is caught by the surrounding handler, then
disconnect. Returns `(result, actions issued in order)`. -/
def stop_integrated_stream (encoderStopOk hasBroadcast : Bool)
    (demoteResult : Except Unit Bool) (disconnectRaises : Bool) :
    Bool × List TeardownAct :=
  if hasBroadcast then
    match demoteResult with
    | .error _ => (false, [.encoderStop, .demoteReq])
    | .ok b =>
      if disconnectRaises then
        (false, [.encoderStop, .demoteReq, .disconnect])
      else
        (encoderStopOk && b, [.encoderStop, .demoteReq, .disconnect])
  else
    if disconnectRaises then (false, [.encoderStop, .disconnect])
    else (encoderStopOk, [.encoderStop, .disconnect])

/-! ## Endpoint configuration (`configure_obs_for_youtube`)

The destination is a server address plus stream key. The
`IntegratedLiveController` variant queries encoder activity first, writes
only when inactive, reads the settings back, and on any verification
failure falls back to prompting the operator and re-reading once more.
The `StreamService` variant writes without any read-back. -/

/-- An OBS stream-service destination: server address and stream key. -/
structure ObsSettings where
  server : String
  key : String
deriving DecidableEq, Repr

/-- A `GetStreamServiceSettings` response as probed by the verification
step: optional `streamServiceType` and optional `streamServiceSettings`
(`none` models a missing attribute). -/
structure VerifyResponse where
  svcType : Option String
  settings : Option ObsSettings
deriving DecidableEq, Repr

/-- Oracle inputs of one `IntegratedLiveController.configure_obs_for_youtube`
call. -/
structure ConfigInputs where
  /-- result of the `is_streaming` activity query -/
  pollStreaming : Bool
  /-- settings read while streaming (`none`: request raised or attribute
  missing) -/
  currentSettings : Option ObsSettings
  /-- whether `SetStreamServiceSettings` returned without raising and
  without an error status -/
  writeOk : Bool
  /-- post-write read-back (`none`: the verification request raised) -/
  readBack : Option VerifyResponse
  /-- re-read after the manual-configuration prompt (`none`: request raised
  or attribute missing) -/
  manualReadBack : Option ObsSettings
deriving DecidableEq, Repr

/-- The post-write verification of `configure_obs_for_youtube`: the service
type, when present, must be `rtmp_custom`, and the settings, when present,
must match the requested server and key exactly. -/
def verifySettingsOk (req : ObsSettings) (v : VerifyResponse) : Bool :=
  (match v.svcType with
   | some t => t == "rtmp_custom"
   | none => true)
  && (match v.settings with
      | some s => s.server == req.server && s.key == req.key
      | none => true)

/-- The final manual re-read comparison: server and key must match the
request exactly; a missing response counts as failure. -/
def manualReadMatches (req : ObsSettings) : Option ObsSettings → Bool
  | some s => s.server == req.server && s.key == req.key
  | none => false

/-- `IntegratedLiveController.configure_obs_for_youtube`: returns
`(result, number of SetStreamServiceSettings writes issued)`. While
streaming no write is issued: matching current settings (or an unreadable
response) yield success, a mismatch yields failure after the manual
prompt. Otherwise the write is attempted once; if the read-back verifies,
success; else the operator is prompted and the final re-read decides. -/
def configure_obs_for_youtube (req : ObsSettings) (i : ConfigInputs) :
    Bool × Nat :=
  if i.pollStreaming then
    match i.currentSettings with
    | some cur =>
      if cur.server == req.server && cur.key == req.key then (true, 0)
      else (false, 0)
    | none => (true, 0)
  else
    let settingSuccess :=
      if i.writeOk then
        match i.readBack with
        | some v => verifySettingsOk req v
        | none => false
      else false
    if settingSuccess then (true, 1)
    else (manualReadMatches req i.manualReadBack, 1)

/-- `StreamService.configure_obs_for_youtube`: query activity; while
streaming return success with no write; otherwise write once and report
success iff the write did not raise (no read-back is performed). Returns
`(result, number of writes issued)`. -/
def configure_obs_for_youtube_service (pollStreaming writeOk : Bool) :
    Bool × Nat :=
  if pollStreaming then (true, 0)
  else if writeOk then (true, 1)
  else (false, 1)

/-! ## Logged messages carrying the stream key

`create_stream` prints the RTMP URL and the stream key verbatim; the
mismatch report of `configure_obs_for_youtube` prints only the first five
characters of the key. -/

/-- The messages printed by `YouTubeLiveController.create_stream`. -/
def createStreamLog (streamId rtmpUrl streamKey : String) : List String :=
  ["ストリームを作成しました: ID = " ++ streamId,
   "RTMP URL: " ++ rtmpUrl,
   "ストリームキー: " ++ streamKey ++ " (このキーをOBSに設定してください)"]

/-- The expected-values line of the mismatch report in
`IntegratedLiveController.configure_obs_for_youtube`: the key is truncated
to its first five characters. -/
def mismatchReportMsg (rtmpUrl streamKey : String) : String :=
  "期待: サーバー=" ++ rtmpUrl ++ ", キー=" ++ streamKey.take 5 ++ "..."

/-- The stream-key announcement of `start_integrated_stream`: also
truncated to the first five characters. -/
def streamKeyAnnounceMsg (streamKey : String) : String :=
  "ストリームキー: " ++ streamKey.take 5 ++ "..."

/-! ## Claim theorems -/

/-- C1: over any sequence of encoder events followed by the fallback poll,
`wait_for_stream_start` (with the session latch initially clear) returns
`true` iff the immediate poll, some delivered event that passes the
category filter with a parseable true activity field, or the fallback poll
indicated active output; it returns `false` only after the wait timed out
and the fallback poll was issued; and an event of an unrelated category,
or one whose payload has neither activity field, never sets the latch. -/
theorem await_active_iff_evidence (initialPoll fallbackPoll : Bool)
    (events : List ObsEvent) :
    ((wait_for_stream_start false initialPoll events fallbackPoll).1 = true ↔
      (initialPoll = true ∨ (∃ ev ∈ events, eventIndicatesActive ev = true) ∨
        fallbackPoll = true))
    ∧ ((wait_for_stream_start false initialPoll events fallbackPoll).1 = false →
        (wait_for_stream_start false initialPoll events fallbackPoll).2 = true)
    ∧ (∀ (latch : Bool) (ev : ObsEvent),
        (categoryMatches ev.eventType = false ∨
          (ev.payload.outputActive = none ∧ ev.payload.outputState = none)) →
        on_stream_status latch ev = latch) := by
  refine ⟨?_, ?_, ?_⟩
  · simp only [wait_for_stream_start, foldl_on_stream_status, Bool.false_or]
    cases initialPoll <;> cases fallbackPoll <;>
      cases h : events.any eventIndicatesActive <;>
        simp_all [List.any_eq_true]
  · simp only [wait_for_stream_start, foldl_on_stream_status, Bool.false_or]
    cases initialPoll <;> cases fallbackPoll <;>
      cases h : events.any eventIndicatesActive <;> simp_all
  · intro latch ev h
    rcases h with h | ⟨h1, h2⟩
    · simp [on_stream_status, eventIndicatesActive, h]
    · simp [on_stream_status, eventIndicatesActive, parseOutputActive, h1, h2]

/-- Witness for C1: a matching event with a true activity field makes the
wait succeed, and an unrelated event leaves a set latch set. -/
theorem await_active_iff_evidence_witness :
    (wait_for_stream_start false false
      [⟨"OutputStateChanged", ⟨some true, none⟩⟩] false).1 = true
    ∧ on_stream_status true ⟨"SceneItemSelected", ⟨none, none⟩⟩ = true :=
  ⟨(await_active_iff_evidence false false
      [⟨"OutputStateChanged", ⟨some true, none⟩⟩]).1.mpr
      (Or.inr (Or.inl ⟨⟨"OutputStateChanged", ⟨some true, none⟩⟩,
        by simp, by decide⟩)),
   (await_active_iff_evidence false false []).2.2 true
      ⟨"SceneItemSelected", ⟨none, none⟩⟩ (Or.inr ⟨rfl, rfl⟩)⟩

/-- C2: `start_broadcast` on a broadcast whose queried state is `live`
returns success with no explicit transition request, so two successive
calls on an already-live broadcast both succeed and issue at most one
(in fact zero) transition requests between them; and whenever an explicit
transition request is issued and the platform rejects it as a redundant
transition, the call still succeeds. -/
theorem start_broadcast_idempotent_on_live :
    (∀ (q₁ q₂ : Nat → String) (i : PromoteInputs),
      i.hasId = true → q₁ 0 = "live" → q₂ 0 = "live" →
        start_broadcast q₁ i = (true, 0) ∧ start_broadcast q₂ i = (true, 0) ∧
          (start_broadcast q₁ i).2 + (start_broadcast q₂ i).2 ≤ 1)
    ∧ (∀ (q : Nat → String) (i : PromoteInputs),
        i.transition = .redundantErr → (start_broadcast q i).2 = 1 →
          (start_broadcast q i).1 = true) := by
  constructor
  · intro q₁ q₂ i hid h1 h2
    simp [start_broadcast, hid, h1, h2]
  · intro q i ht h2
    simp only [start_broadcast, runTransition, ht] at h2 ⊢
    split_ifs at h2 ⊢ <;> simp_all

/-- Witness for C2: concrete already-live oracle, and a concrete rejected
redundant transition treated as success. -/
theorem start_broadcast_idempotent_on_live_witness :
    (start_broadcast (fun _ => "live")
        ⟨true, false, TransitionOutcome.otherErr, false⟩ = (true, 0)
      ∧ start_broadcast (fun _ => "live")
          ⟨true, false, TransitionOutcome.otherErr, false⟩ = (true, 0)
      ∧ (start_broadcast (fun _ => "live")
            ⟨true, false, TransitionOutcome.otherErr, false⟩).2
          + (start_broadcast (fun _ => "live")
              ⟨true, false, TransitionOutcome.otherErr, false⟩).2 ≤ 1)
    ∧ (start_broadcast (fun _ => "created")
        ⟨true, false, TransitionOutcome.redundantErr, false⟩).1 = true :=
  ⟨start_broadcast_idempotent_on_live.1 (fun _ => "live") (fun _ => "live")
      ⟨true, false, TransitionOutcome.otherErr, false⟩ rfl rfl rfl,
   start_broadcast_idempotent_on_live.2 (fun _ => "created")
      ⟨true, false, TransitionOutcome.redundantErr, false⟩ rfl (by decide)⟩

/-- C3: when the explicit transition request is rejected as an invalid
transition (state queried as neither live nor ready/testing, so the
request is issued directly), `start_broadcast` does not fail immediately:
with the one-time manual operator confirmation it succeeds; without it,
the single post-grace re-check decides, and if that re-check is still not
live the call returns failure — which `start_integrated_stream` reports
as a failure at the promotion stage. -/
theorem start_broadcast_invalid_transition_grace :
    (∀ (q : Nat → String) (i : PromoteInputs),
      i.hasId = true → i.transition = .invalidErr →
      (q 0 == "live") = false → isReadyOrTesting (q 0) = false →
        ((i.manualConfirm = true → start_broadcast q i = (true, 1))
         ∧ (i.manualConfirm = false →
             start_broadcast q i = ((q 1 == "live"), 1))
         ∧ (i.manualConfirm = false → (q 1 == "live") = false →
             start_broadcast q i = (false, 1))))
    ∧ (∀ (o : OrchInputs),
        o.broadcastOk = true → o.streamOk = true → o.bindOk = true →
        o.configOk = true → o.sceneOk = true → o.encoderStartOk = true →
        o.promoteOk = false →
          start_integrated_stream o = .error .promotion) := by
  constructor
  · intro q i hid ht h0 hrt
    refine ⟨?_, ?_, ?_⟩ <;> intro hm
    · simp [start_broadcast, runTransition, hid, ht, h0, hrt, hm]
    · simp [start_broadcast, runTransition, hid, ht, h0, hrt, hm]
    · intro h1
      simp [start_broadcast, runTransition, hid, ht, h0, hrt, hm, h1]
  · intro o h1 h2 h3 h4 h5 h6 h7
    simp [start_integrated_stream, h1, h2, h3, h4, h5, h6, h7]

/-- Witness for C3: concrete invalid-transition run with no manual
confirmation and a non-live grace re-check fails, and the orchestrator
reports the promotion stage. -/
theorem start_broadcast_invalid_transition_grace_witness :
    start_broadcast (fun _ => "created")
        ⟨true, false, TransitionOutcome.invalidErr, false⟩ = (false, 1)
    ∧ start_integrated_stream ⟨true, true, true, true, true, true, true, false⟩
        = .error .promotion :=
  ⟨(start_broadcast_invalid_transition_grace.1 (fun _ => "created")
      ⟨true, false, TransitionOutcome.invalidErr, false⟩ rfl rfl (by decide)
      (by decide)).2.2 rfl (by decide),
   start_broadcast_invalid_transition_grace.2
      ⟨true, true, true, true, true, true, true, false⟩ rfl rfl rfl rfl rfl rfl rfl⟩

deriving instance DecidableEq for Except

/-- C4: with a broadcast present, `stop_integrated_stream` issues the
encoder stop exactly once and always attempts the demotion, whatever the
other action's outcome (the demotion raising included); and it returns
success only when the encoder stop succeeded and the demotion reported
success. -/
theorem stop_attempts_both_teardowns (encOk : Bool)
    (demote : Except Unit Bool) (disc : Bool) :
    ((stop_integrated_stream encOk true demote disc).2.count
        TeardownAct.encoderStop = 1)
    ∧ ((stop_integrated_stream encOk true demote disc).2.count
        TeardownAct.demoteReq = 1)
    ∧ ((stop_integrated_stream encOk true demote disc).1 = true →
        encOk = true ∧ demote = .ok true) := by
  rcases demote with u | b
  · cases u
    cases disc <;> cases encOk <;> decide
  · cases b <;> cases disc <;> cases encOk <;> decide

/-- Witness for C4: a fully successful stop issues one encoder stop and
its success certifies both teardown results. -/
theorem stop_attempts_both_teardowns_witness :
    (stop_integrated_stream true true (.ok true) false).2.count
        TeardownAct.encoderStop = 1
    ∧ (true = true ∧ (Except.ok true : Except Unit Bool) = Except.ok true) :=
  ⟨(stop_attempts_both_teardowns true (.ok true) false).1,
   (stop_attempts_both_teardowns true (.ok true) false).2.2 (by decide)⟩

/-- C5 counterexample: with the encoder reported not streaming, an accepted
write whose read-back shows a different stream key does not yield failure:
after the manual-configuration prompt the re-read matches and the
operation returns success. This falsifies "a read-back mismatch always
yields a failed result, never a successful Applied result". -/
theorem configure_readback_mismatch_success_cex :
    configure_obs_for_youtube ⟨"rtmp://a.rtmp.youtube.com/live2", "KEYAB-12345"⟩
      ⟨false, none, true,
        some ⟨some "rtmp_custom",
          some ⟨"rtmp://a.rtmp.youtube.com/live2", "STALE-99999"⟩⟩,
        some ⟨"rtmp://a.rtmp.youtube.com/live2", "KEYAB-12345"⟩⟩
      = (true, 1) := by decide

/-- C5 (amended): neither variant ever issues a destination write while the
activity query reports streaming; and in the `IntegratedLiveController`
variant, whenever the encoder was reported not streaming and the
post-write read-back settings mismatch the request, the automatic path
never succeeds — the result is exactly that of the operator-assisted
re-read, which succeeds only on an exact server-and-key match. -/
theorem configure_no_write_while_streaming :
    (∀ (req : ObsSettings) (i : ConfigInputs),
      i.pollStreaming = true → (configure_obs_for_youtube req i).2 = 0)
    ∧ (∀ (pollStreaming writeOk : Bool), pollStreaming = true →
        (configure_obs_for_youtube_service pollStreaming writeOk).2 = 0)
    ∧ (∀ (req : ObsSettings) (i : ConfigInputs) (v : VerifyResponse)
        (s : ObsSettings),
        i.pollStreaming = false → i.readBack = some v → v.settings = some s →
        (s.server == req.server && s.key == req.key) = false →
          (configure_obs_for_youtube req i).1
            = manualReadMatches req i.manualReadBack) := by
  refine ⟨?_, ?_, ?_⟩
  · intro req i h
    rcases i with ⟨p, cur, w, rb, mrb⟩
    rcases cur with _ | c
    · simp_all [configure_obs_for_youtube]
    · simp_all [configure_obs_for_youtube]
      split <;> rfl
  · intro p w h
    simp [configure_obs_for_youtube_service, h]
  · intro req i v s hp hrb hs hmis
    rcases i with ⟨p, cur, w, rb, mrb⟩
    simp only at hp hrb
    subst hp hrb
    have hv : verifySettingsOk req v = false := by
      unfold verifySettingsOk
      rw [hs]
      simp [hmis]
    cases w <;> simp [configure_obs_for_youtube, hv]

/-- Witness for C5 (amended): while streaming no write is issued in either
variant, and a concrete read-back mismatch with an unchanged re-read
yields failure. -/
theorem configure_no_write_while_streaming_witness :
    (configure_obs_for_youtube ⟨"rtmp://a", "K1234-5678"⟩
        ⟨true, none, true, none, none⟩).2 = 0
    ∧ (configure_obs_for_youtube_service true true).2 = 0
    ∧ (configure_obs_for_youtube ⟨"rtmp://a", "K1234-5678"⟩
        ⟨false, none, true, some ⟨some "rtmp_custom", some ⟨"rtmp://a", "WRONG"⟩⟩,
          some ⟨"rtmp://a", "WRONG"⟩⟩).1
        = manualReadMatches ⟨"rtmp://a", "K1234-5678"⟩
            (some ⟨"rtmp://a", "WRONG"⟩) :=
  ⟨configure_no_write_while_streaming.1 ⟨"rtmp://a", "K1234-5678"⟩
      ⟨true, none, true, none, none⟩ rfl,
   configure_no_write_while_streaming.2.1 true true rfl,
   configure_no_write_while_streaming.2.2 ⟨"rtmp://a", "K1234-5678"⟩
      ⟨false, none, true, some ⟨some "rtmp_custom", some ⟨"rtmp://a", "WRONG"⟩⟩,
        some ⟨"rtmp://a", "WRONG"⟩⟩
      ⟨some "rtmp_custom", some ⟨"rtmp://a", "WRONG"⟩⟩ ⟨"rtmp://a", "WRONG"⟩
      rfl rfl rfl (by decide)⟩

/-- C6 counterexample: a poll whose request raises makes `is_streaming`
return `False` — the very value a successful poll reporting inactive
output returns. The failure is reported as "inactive", not as a distinct
"unknown". -/
theorem is_streaming_failure_reported_inactive_cex :
    is_streaming (Except.error ()) = false
    ∧ is_streaming (Except.error ())
        = is_streaming (Except.ok ⟨some false, "GetStreamStatusResponse"⟩) := by
  exact ⟨rfl, rfl⟩

/-- C6 (amended): `is_streaming` has no "unknown" result: when the poll
request raises it returns `False`, indistinguishable from a successful
poll that confirmed inactive output. -/
theorem is_streaming_error_is_false :
    ∀ (u : Unit) (r : String),
      is_streaming (Except.error u) = false
      ∧ is_streaming (Except.error u)
          = is_streaming (Except.ok ⟨some false, r⟩) := by
  intro u r
  exact ⟨rfl, rfl⟩

/-- C7 counterexample: a session start with a stale latch and no activity
evidence (not already streaming, start accepted, post-check negative)
returns success yet leaves the latch set: the latch is not reset at
session start. -/
theorem latch_not_reset_at_start_cex :
    (start_streaming true ⟨false, true, false, false⟩).1 = true
    ∧ (start_streaming true ⟨false, true, false, false⟩).2 = true := by
  exact ⟨rfl, rfl⟩

/-- C7 (amended): the latch is monotonic within a session — no event, event
sequence, or `start_streaming` call ever unsets a set latch — and it is
explicitly cleared on every successful `stop_streaming`; it is not reset
at session start. -/
theorem latch_monotonic_reset_at_stop :
    (∀ (ev : ObsEvent), on_stream_status true ev = true)
    ∧ (∀ (events : List ObsEvent), events.foldl on_stream_status true = true)
    ∧ (∀ (latch : Bool) (i : StopStreamingInputs),
        (stop_streaming latch i).1 = true → (stop_streaming latch i).2 = false)
    ∧ (∀ (latch : Bool) (i : StartStreamingInputs),
        latch = true → (start_streaming latch i).2 = true) := by
  refine ⟨?_, ?_, ?_, ?_⟩
  · intro ev
    simp [on_stream_status_eq]
  · intro events
    simp [foldl_on_stream_status]
  · intro latch i
    rcases i with ⟨s, ok, na⟩
    cases s <;> cases ok <;> cases na <;> simp_all [stop_streaming]
  · intro latch i h
    subst h
    rcases i with ⟨a, ok, ea, ps⟩
    cases a <;> cases ok <;> cases ea <;> simp_all [start_streaming]

/-- Witness for C7 (amended): a successful concrete stop clears the latch,
and a concrete start leaves a set latch set. -/
theorem latch_monotonic_reset_at_stop_witness :
    (stop_streaming true ⟨true, true, false⟩).2 = false
    ∧ (start_streaming true ⟨false, true, false, true⟩).2 = true :=
  ⟨latch_monotonic_reset_at_stop.2.2.1 true ⟨true, true, false⟩ (by decide),
   latch_monotonic_reset_at_stop.2.2.2 true ⟨false, true, false, true⟩ rfl⟩

/-- C8 counterexample: a demotion request rejected by the platform as a
redundant transition is not treated as success: `end_broadcast` raises
(no handler catches the error), and `stop_integrated_stream` — with the
encoder stop succeeding — reports overall failure. -/
theorem end_broadcast_redundant_fails_cex :
    end_broadcast true .redundantErr = .error ()
    ∧ (stop_integrated_stream true true (end_broadcast true .redundantErr)
        false).1 = false := by
  exact ⟨rfl, rfl⟩

/-- C8 (amended): `end_broadcast` requests the `complete` transition and
succeeds exactly when the platform reports `complete`; any transition
error — a redundant-transition rejection included — propagates as an
exception, which `stop_integrated_stream` reports as failure, but the
encoder stop precedes the demotion attempt and is still issued exactly
once. -/
theorem end_broadcast_demote_semantics :
    (∀ (s : String), end_broadcast true (.ok s) = .ok (s == "complete"))
    ∧ (∀ (encOk disc : Bool) (t : TransitionOutcome),
        end_broadcast true t = .error () →
          (stop_integrated_stream encOk true (end_broadcast true t) disc).1
              = false
          ∧ (stop_integrated_stream encOk true (end_broadcast true t)
              disc).2.count TeardownAct.encoderStop = 1) := by
  constructor
  · intro s
    rfl
  · intro encOk disc t h
    rw [h]
    exact ⟨rfl, rfl⟩

/-- Witness for C8 (amended): the concrete redundant rejection makes the
stop sequence fail while the encoder stop is still issued once. -/
theorem end_broadcast_demote_semantics_witness :
    end_broadcast true (.ok "complete") = .ok true
    ∧ (stop_integrated_stream true true
        (end_broadcast true .redundantErr) false).1 = false
    ∧ (stop_integrated_stream true true
        (end_broadcast true .redundantErr) false).2.count
          TeardownAct.encoderStop = 1 :=
  ⟨end_broadcast_demote_semantics.1 "complete",
   (end_broadcast_demote_semantics.2 true false .redundantErr rfl).1,
   (end_broadcast_demote_semantics.2 true false .redundantErr rfl).2⟩

/-- C9 counterexample: `create_stream` prints the transport credential in
full — its third log message contains the entire stream key as a
substring, falsifying "the stream key never appears in full in any
reported or logged message". -/
theorem stream_key_logged_in_full_cex :
    (createStreamLog "sid42" "rtmp://a.rtmp.youtube.com/live2"
        "abcd-efgh-ijkl-mnop").getD 2 ""
      = "ストリームキー: abcd-efgh-ijkl-mnop (このキーをOBSに設定してください)"
    ∧ containsSub "abcd-efgh-ijkl-mnop"
        ((createStreamLog "sid42" "rtmp://a.rtmp.youtube.com/live2"
          "abcd-efgh-ijkl-mnop").getD 2 "") = true := by
  constructor
  · rfl
  · decide

/-- C9 (amended): the mismatch report of `configure_obs_for_youtube` and
the announcement of `start_integrated_stream` reveal at most the first
five characters of the stream key — two keys sharing that head produce
identical messages — while `create_stream` and the manual-configuration
instructions print the key in full. -/
theorem mismatch_report_hides_key :
    ∀ (url k₁ k₂ : String), k₁.take 5 = k₂.take 5 →
      mismatchReportMsg url k₁ = mismatchReportMsg url k₂
      ∧ streamKeyAnnounceMsg k₁ = streamKeyAnnounceMsg k₂ := by
  intro url k₁ k₂ h
  unfold mismatchReportMsg streamKeyAnnounceMsg
  rw [h]
  exact ⟨rfl, rfl⟩

/-- Witness for C9 (amended): two keys agreeing on their first five
characters produce the same mismatch report. -/
theorem mismatch_report_hides_key_witness :
    mismatchReportMsg "rtmp://a" "SECRETKEY-111"
        = mismatchReportMsg "rtmp://a" "SECREXXXX-999"
    ∧ streamKeyAnnounceMsg "SECRETKEY-111"
        = streamKeyAnnounceMsg "SECREXXXX-999" :=
  mismatch_report_hides_key "rtmp://a" "SECRETKEY-111" "SECREXXXX-999" (by decide)

/-- C10: whenever `start_streaming` finds the encoder not already
streaming and the `StartStream` request does not raise, it returns `True`
regardless of the status check performed two seconds later; in particular
when that check reports not streaming, the activity latch is left exactly
as it was — the `True` return carries no confirmation of active output. -/
theorem start_streaming_true_without_confirmation :
    ∀ (latch : Bool) (i : StartStreamingInputs),
      i.alreadyStreaming = false → i.sendOk = true →
        (start_streaming latch i).1 = true
        ∧ (i.postStatus = false → (start_streaming latch i).2 = latch) := by
  intro latch i h1 h2
  constructor
  · simp [start_streaming, h1, h2]
  · intro h3
    simp [start_streaming, h1, h2, h3]

/-- Witness for C10: a concrete accepted start with a negative post-check
returns `True` with the latch still clear. -/
theorem start_streaming_true_without_confirmation_witness :
    (start_streaming false ⟨false, true, false, false⟩).1 = true
    ∧ (start_streaming false ⟨false, true, false, false⟩).2 = false :=
  ⟨(start_streaming_true_without_confirmation false
      ⟨false, true, false, false⟩ rfl rfl).1,
   (start_streaming_true_without_confirmation false
      ⟨false, true, false, false⟩ rfl rfl).2 rfl⟩
